import Mathlib

/-!
Verification of the device-cycling state machine of a smart-home GUI demo
(`src/main.py`, class `SmartHomeApp`).

The embedded state is the triple owned by the `SmartHomeApp` widget:
the ordered device dictionary `devices`, the name of the current device
`current_device`, and the click counter `action_count`.  The two button
handlers `toggleLight` and `setThermostat` are embedded as functions
returning `Option SmartHomeApp`: `none` models a Python exception
(a failed `list.index`, a failed dict subscript, an out-of-range list
subscript, or a failing `int(...)` conversion).
-/

/-- Python dict assignment `d[k] = v` on an insertion-ordered dict
represented as an association list: replace the value of an existing key
in place, append a fresh key at the end. -/
def dictSet : List (String × String) → String → String → List (String × String)
  | [], k, v => [(k, v)]
  | (k', v') :: rest, k, v =>
      if k' = k then (k, v) :: rest else (k', v') :: dictSet rest k v

/-- Python `list.index(x)`: position of the first occurrence of `x`,
`none` when absent (Python raises `ValueError`). -/
def listIndex? : List String → String → Option Nat
  | [], _ => none
  | y :: ys, x => if y = x then some 0 else (listIndex? ys x).map (fun i => i + 1)

/-- Python `s.replace("°C", "")` on the character list of `s`:
left-to-right removal of every non-overlapping occurrence of the
two-character pattern `°C`. -/
def stripDegC : List Char → List Char
  | '°' :: 'C' :: rest => stripDegC rest
  | c :: rest => c :: stripDegC rest
  | [] => []

/-- String version of `stripDegC`. -/
def stripDegCStr (s : String) : String :=
  List.asString (stripDegC s.toList)

/-- Value of a decimal digit string read left to right. -/
def digitsToNat (cs : List Char) : Nat :=
  cs.foldl (fun n c => n * 10 + (c.toNat - 48)) 0

/-- Python `int(s)` restricted to the shapes that occur here: an optional
leading minus sign followed by one or more decimal digits; any other
string fails (Python raises `ValueError`, embedded as `none`). -/
def parseInt? (s : String) : Option Int :=
  match s.toList with
  | [] => none
  | '-' :: rest =>
      if rest ≠ [] ∧ rest.all Char.isDigit then
        some (-(digitsToNat rest : Int))
      else none
  | cs =>
      if cs.all Char.isDigit then some ((digitsToNat cs : Int)) else none

/-- The mutable state of the `SmartHomeApp` widget: the device dict, the
name of the current device, and the action counter. -/
structure SmartHomeApp where
  devices : List (String × String)
  current_device : String
  action_count : Nat
deriving DecidableEq, Repr

/-- The state after `SmartHomeApp.__init__` and `setupUI`:
three devices in insertion order, cursor on the living-room light,
zero actions performed. -/
def SmartHomeApp.init : SmartHomeApp where
  devices := [("Living Room Light", "Off"), ("Thermostat", "22°C"),
              ("Security System", "Disarmed")]
  current_device := "Living Room Light"
  action_count := 0

/-- The light-toggle expression of `toggleLight`:
`"On" if v == "Off" else "Off"`. -/
def lightFlip (v : String) : String :=
  if v = "Off" then "On" else "Off"

/-- The temperature update expression of `setThermostat`:
`(t + 1) % 30 if t < 30 else 20`.  (Lean's `Int` `%` is Euclidean and
agrees with Python's `%` for the positive modulus 30.) -/
def thermostatStep (t : Int) : Int :=
  if t < 30 then (t + 1) % 30 else 20

/-- Handler of the "Toggle Light" button (`SmartHomeApp.toggleLight`):
advance the cursor to the next device (wrapping), flip the light value
if the cursor landed on "Living Room Light", increment the counter. -/
def SmartHomeApp.toggleLight (s : SmartHomeApp) : Option SmartHomeApp := do
  let device_list := s.devices.map Prod.fst
  let current_index ← listIndex? device_list s.current_device
  let next_device ← device_list.get? ((current_index + 1) % device_list.length)
  let s := { s with current_device := next_device }
  let s ←
    if s.current_device = "Living Room Light" then do
      let v ← s.devices.lookup "Living Room Light"
      pure { s with devices := dictSet s.devices "Living Room Light" (lightFlip v) }
    else
      pure s
  pure { s with action_count := s.action_count + 1 }

/-- Handler of the "Set Thermostat" button (`SmartHomeApp.setThermostat`):
advance the cursor to the next device (wrapping); if it landed on
"Thermostat", parse the stored value with the `°C` suffix stripped,
step the temperature and write it back with `°C` re-appended;
increment the counter. -/
def SmartHomeApp.setThermostat (s : SmartHomeApp) : Option SmartHomeApp := do
  let device_list := s.devices.map Prod.fst
  let current_index ← listIndex? device_list s.current_device
  let next_device ← device_list.get? ((current_index + 1) % device_list.length)
  let s := { s with current_device := next_device }
  let s ←
    if s.current_device = "Thermostat" then do
      let v ← s.devices.lookup "Thermostat"
      let current_temp ← parseInt? (stripDegCStr v)
      let new_temp : Int := thermostatStep current_temp
      pure { s with devices := dictSet s.devices "Thermostat" (toString new_temp ++ "°C") }
    else
      pure s
  pure { s with action_count := s.action_count + 1 }

/-- The two user actions, one per button handler. -/
inductive UserAction where
  | toggleLight
  | setThermostat
deriving DecidableEq, Repr

/-- Dispatch one action to its handler. -/
def step : UserAction → SmartHomeApp → Option SmartHomeApp
  | UserAction.toggleLight, s => s.toggleLight
  | UserAction.setThermostat, s => s.setThermostat

/-- Execute a sequence of button clicks from a given state. -/
def run : List UserAction → SmartHomeApp → Option SmartHomeApp
  | [], s => some s
  | a :: rest, s => (step a s).bind (run rest)

/-- The device this action's mutation branch is guarded on. -/
def targetName : UserAction → String
  | UserAction.toggleLight => "Living Room Light"
  | UserAction.setThermostat => "Thermostat"

/-- The fixed registry key sequence. -/
def deviceNames : List String :=
  ["Living Room Light", "Thermostat", "Security System"]

/-- The registry with given light, thermostat and security values. -/
def mkDevices (lv tvs sv : String) : List (String × String) :=
  [("Living Room Light", lv), ("Thermostat", tvs), ("Security System", sv)]

/-- The thermostat string stored for temperature `tv`. -/
def tStr (tv : Nat) : String :=
  toString tv ++ "°C"

/-- Cursor position of a device name in the fixed registry. -/
def cursorIdx : String → Nat
  | "Thermostat" => 1
  | "Security System" => 2
  | _ => 0

/-- The registry name that follows `c` in the round-robin cycle. -/
def nextDevice : String → String
  | "Living Room Light" => "Thermostat"
  | "Thermostat" => "Security System"
  | _ => "Living Room Light"

/-- Invariant of every reachable state: the registry has exactly the
three initial keys in order, the light is "Off" or "On", the thermostat
stores an integer below 30 with the `°C` suffix, the security system is
"Disarmed", and the cursor names a registry key. -/
def StateInv (s : SmartHomeApp) : Prop :=
  ∃ lv tv, (lv = "Off" ∨ lv = "On") ∧ tv < 30 ∧
    s.devices = mkDevices lv (tStr tv) "Disarmed" ∧
    s.current_device ∈ deviceNames

/-- States reachable from the initial state by some click sequence. -/
def Reach (s : SmartHomeApp) : Prop :=
  ∃ acts : List UserAction, run acts SmartHomeApp.init = some s

example : SmartHomeApp.init.devices = mkDevices "Off" (tStr 22) "Disarmed" := rfl
example : stripDegCStr "22°C" = "22" := rfl
example : parseInt? "22" = some 22 := rfl
example : toString ((7 : Nat) : Int) = toString (7 : Nat) := rfl

theorem toggleLight_run (lv tvs sv cur : String) (n : Nat) (hcur : cur ∈ deviceNames) :
    SmartHomeApp.toggleLight ⟨mkDevices lv tvs sv, cur, n⟩ =
      some ⟨mkDevices (if nextDevice cur = "Living Room Light" then lightFlip lv else lv) tvs sv,
            nextDevice cur, n + 1⟩ := by
  fin_cases hcur <;>
    simp [SmartHomeApp.toggleLight, mkDevices, listIndex?, dictSet, nextDevice, lightFlip,
      List.lookup, Option.bind]

theorem setThermostat_run (lv sv cur : String) (tv n : Nat)
    (hcur : cur ∈ deviceNames) (htv : tv < 30) :
    SmartHomeApp.setThermostat ⟨mkDevices lv (tStr tv) sv, cur, n⟩ =
      some ⟨mkDevices lv (if nextDevice cur = "Thermostat" then tStr ((tv + 1) % 30) else tStr tv) sv,
            nextDevice cur, n + 1⟩ := by
  fin_cases hcur
  · interval_cases tv <;> rfl
  · simp [SmartHomeApp.setThermostat, mkDevices, listIndex?, dictSet, nextDevice,
      List.lookup, Option.bind]
  · simp [SmartHomeApp.setThermostat, mkDevices, listIndex?, dictSet, nextDevice,
      List.lookup, Option.bind]

theorem lookup_cons_unfold (k a b : String) (l : List (String × String)) :
    ((a, b) :: l).lookup k = if k = a then some b else l.lookup k := by
  by_cases h : k = a
  · subst h; simp [List.lookup]
  · have hb : (k == a) = false := beq_eq_false_iff_ne.mpr h
    simp [List.lookup, hb, h]

theorem lookup_mkDevices (lv tvs sv k : String) :
    (mkDevices lv tvs sv).lookup k =
      if k = "Living Room Light" then some lv
      else if k = "Thermostat" then some tvs
      else if k = "Security System" then some sv
      else none := by
  simp [mkDevices, lookup_cons_unfold]

theorem nextDevice_mem (c : String) (h : c ∈ deviceNames) : nextDevice c ∈ deviceNames := by
  fin_cases h <;> decide

theorem cursorIdx_lt (c : String) (h : c ∈ deviceNames) : cursorIdx c < 3 := by
  fin_cases h <;> decide

theorem cursorIdx_nextDevice (c : String) (h : c ∈ deviceNames) :
    cursorIdx (nextDevice c) = (cursorIdx c + 1) % 3 := by
  fin_cases h <;> decide

theorem lightFlip_mem (lv : String) (h : lv = "Off" ∨ lv = "On") :
    lightFlip lv = "Off" ∨ lightFlip lv = "On" := by
  rcases h with rfl | rfl <;> decide

theorem lightFlip_ne (lv : String) (h : lv = "Off" ∨ lv = "On") : lightFlip lv ≠ lv := by
  rcases h with rfl | rfl <;> decide

theorem tStr_step_ne : ∀ tv : Nat, tv < 30 → tStr ((tv + 1) % 30) ≠ tStr tv := by decide

theorem parse_tStr : ∀ tv : Nat, tv < 30 → parseInt? (stripDegCStr (tStr tv)) = some (tv : Int) := by
  decide

theorem step_sound (a : UserAction) (s : SmartHomeApp) (h : StateInv s) :
    ∃ s', step a s = some s' ∧ StateInv s' ∧
      s'.current_device = nextDevice s.current_device ∧
      s'.action_count = s.action_count + 1 ∧
      s'.devices.map Prod.fst = s.devices.map Prod.fst ∧
      (∀ k, k ≠ targetName a → s'.devices.lookup k = s.devices.lookup k) ∧
      (s'.devices ≠ s.devices ↔ s'.current_device = targetName a) := by
  obtain ⟨lv, tv, hlv, htv, hdev, hcur⟩ := h
  obtain ⟨d, c, n⟩ := s
  dsimp only at hdev hcur ⊢
  subst hdev
  cases a
  case toggleLight =>
    refine ⟨_, toggleLight_run lv (tStr tv) "Disarmed" c n hcur, ?_, rfl, rfl, rfl, ?_, ?_⟩
    · exact ⟨_, tv, by
        by_cases hb : nextDevice c = "Living Room Light" <;>
          simp [hb, hlv, lightFlip_mem lv hlv], htv, rfl, nextDevice_mem c hcur⟩
    · intro k hk
      dsimp only [targetName] at hk
      by_cases hb : nextDevice c = "Living Room Light" <;>
        simp [hb, lookup_mkDevices, hk]
    · dsimp only [targetName]
      by_cases hb : nextDevice c = "Living Room Light" <;> simp [hb, mkDevices]
      exact fun he => lightFlip_ne lv hlv he
  case setThermostat =>
    refine ⟨_, setThermostat_run lv "Disarmed" c tv n hcur htv, ?_, rfl, rfl, rfl, ?_, ?_⟩
    · refine ⟨lv, if nextDevice c = "Thermostat" then (tv + 1) % 30 else tv, hlv, ?_, ?_, nextDevice_mem c hcur⟩
      · by_cases hb : nextDevice c = "Thermostat" <;> simp [hb, htv]
        exact Nat.mod_lt _ (by norm_num)
      · by_cases hb : nextDevice c = "Thermostat" <;> simp [hb]
    · intro k hk
      dsimp only [targetName] at hk
      by_cases hb : nextDevice c = "Thermostat" <;>
        simp [hb, lookup_mkDevices, hk]
    · dsimp only [targetName]
      by_cases hb : nextDevice c = "Thermostat" <;> simp [hb, mkDevices]
      exact fun he => tStr_step_ne tv htv he

theorem run_sound (acts : List UserAction) (s : SmartHomeApp) (h : StateInv s) :
    ∃ s', run acts s = some s' ∧ StateInv s' ∧
      cursorIdx s'.current_device = (cursorIdx s.current_device + acts.length) % 3 ∧
      s'.action_count = s.action_count + acts.length ∧
      s'.devices.map Prod.fst = s.devices.map Prod.fst := by
  induction acts generalizing s with
  | nil =>
      obtain ⟨lv, tv, hlv, htv, hdev, hcur⟩ := h
      exact ⟨s, rfl, ⟨lv, tv, hlv, htv, hdev, hcur⟩,
        by rw [List.length_nil, Nat.add_zero, Nat.mod_eq_of_lt (cursorIdx_lt _ hcur)],
        rfl, rfl⟩
  | cons a rest ih =>
      have hcur0 : s.current_device ∈ deviceNames := by
        obtain ⟨lv, tv, hlv, htv, hdev, hcur⟩ := h
        exact hcur
      obtain ⟨s1, hs1, hInv1, hcd1, hcnt1, hmap1, -, -⟩ := step_sound a s h
      obtain ⟨s', hs', hInv', hidx', hcnt', hmap'⟩ := ih s1 hInv1
      refine ⟨s', ?_, hInv', ?_, ?_, hmap'.trans hmap1⟩
      · rw [run, hs1, Option.some_bind, hs']
      · rw [hidx', hcd1, cursorIdx_nextDevice _ hcur0, List.length_cons]
        omega
      · rw [hcnt', hcnt1, List.length_cons]
        omega

theorem stateInv_init : StateInv SmartHomeApp.init :=
  ⟨"Off", 22, Or.inl rfl, by omega, rfl, by decide⟩

theorem reach_inv (s : SmartHomeApp) (h : Reach s) : StateInv s := by
  obtain ⟨acts, hacts⟩ := h
  obtain ⟨s', hs', hInv', -, -, -⟩ := run_sound acts SmartHomeApp.init stateInv_init
  rw [hacts] at hs'
  exact (Option.some.inj hs') ▸ hInv'

/-- C1: the claim says the thermostat value steps by +1 inside the inclusive
range [20, 30] and wraps 30 → 20, so that from 22°C the sequence is
22, 23, ..., 30, 20, 21, ... and never leaves [20, 30].  The code instead
computes `(t + 1) % 30`, so from 29°C it writes "0°C": after 19 consecutive
thermostat clicks from startup the stored value is "29°C", and after the
22nd click (the next one to land on the thermostat) it is "0°C" — the value
29 is followed by 0, 30 is never reached, and the range [20, 30] is left.
This evaluation documents the divergence between the code and both the
claim and the code's own comment ("Cycle between 20-30°C"). -/
theorem C1_thermostat_escapes_range :
    (run (List.replicate 19 UserAction.setThermostat) SmartHomeApp.init).bind
        (fun s => s.devices.lookup "Thermostat") = some "29°C" ∧
    (run (List.replicate 22 UserAction.setThermostat) SmartHomeApp.init).bind
        (fun s => s.devices.lookup "Thermostat") = some "0°C" ∧
    thermostatStep 29 = 0 ∧ ¬ (20 ≤ thermostatStep 29) :=
  ⟨rfl, rfl, rfl, by decide⟩

/-- C2: a call mutates the device dictionary iff the device the cursor lands
on after advancing is the action's target, every other key's value is
unchanged, and in the concrete 3-call toggleLight scenario from startup the
first two calls (landing on Thermostat and Security System) mutate nothing
while the third (landing on Living Room Light) flips the light once. -/
theorem C2_mutation_iff_landing (s : SmartHomeApp) (h : Reach s) (a : UserAction) :
    (∃ s', step a s = some s' ∧
      (s'.devices ≠ s.devices ↔ s'.current_device = targetName a) ∧
      ∀ k, k ≠ targetName a → s'.devices.lookup k = s.devices.lookup k) ∧
    run [UserAction.toggleLight] SmartHomeApp.init =
      some ⟨SmartHomeApp.init.devices, "Thermostat", 1⟩ ∧
    run [UserAction.toggleLight, UserAction.toggleLight] SmartHomeApp.init =
      some ⟨SmartHomeApp.init.devices, "Security System", 2⟩ ∧
    run [UserAction.toggleLight, UserAction.toggleLight, UserAction.toggleLight]
        SmartHomeApp.init =
      some ⟨mkDevices "On" (tStr 22) "Disarmed", "Living Room Light", 3⟩ := by
  refine ⟨?_, rfl, rfl, rfl⟩
  obtain ⟨s', hs', -, -, -, -, hframe, hiff⟩ := step_sound a s (reach_inv s h)
  exact ⟨s', hs', hiff, hframe⟩

theorem C2_mutation_iff_landing_witness :
    Reach SmartHomeApp.init ∧
    ((∃ s', step UserAction.toggleLight SmartHomeApp.init = some s' ∧
      (s'.devices ≠ SmartHomeApp.init.devices ↔
        s'.current_device = targetName UserAction.toggleLight) ∧
      ∀ k, k ≠ targetName UserAction.toggleLight →
        s'.devices.lookup k = SmartHomeApp.init.devices.lookup k) ∧
    run [UserAction.toggleLight] SmartHomeApp.init =
      some ⟨SmartHomeApp.init.devices, "Thermostat", 1⟩ ∧
    run [UserAction.toggleLight, UserAction.toggleLight] SmartHomeApp.init =
      some ⟨SmartHomeApp.init.devices, "Security System", 2⟩ ∧
    run [UserAction.toggleLight, UserAction.toggleLight, UserAction.toggleLight]
        SmartHomeApp.init =
      some ⟨mkDevices "On" (tStr 22) "Disarmed", "Living Room Light", 3⟩) :=
  ⟨⟨[], rfl⟩, C2_mutation_iff_landing SmartHomeApp.init ⟨[], rfl⟩ UserAction.toggleLight⟩

/-- C3: starting from any reachable state, after any sequence of N calls
drawn from the two handlers in any order, the cursor index equals
(initial index + N) mod registry length: the cursor advances
unconditionally on every call, independently of the action invoked. -/
theorem C3_cursor_advances_mod (s : SmartHomeApp) (h : Reach s) (acts : List UserAction) :
    ∃ s', run acts s = some s' ∧
      cursorIdx s'.current_device =
        (cursorIdx s.current_device + acts.length) % SmartHomeApp.init.devices.length := by
  obtain ⟨s', hs', -, hidx, -, -⟩ := run_sound acts s (reach_inv s h)
  have hlen : SmartHomeApp.init.devices.length = 3 := rfl
  exact ⟨s', hs', by rw [hlen]; exact hidx⟩

theorem C3_cursor_advances_mod_witness :
    Reach SmartHomeApp.init ∧
    ∃ s', run [UserAction.toggleLight] SmartHomeApp.init = some s' ∧
      cursorIdx s'.current_device =
        (cursorIdx SmartHomeApp.init.current_device + [UserAction.toggleLight].length) %
          SmartHomeApp.init.devices.length :=
  ⟨⟨[], rfl⟩, C3_cursor_advances_mod SmartHomeApp.init ⟨[], rfl⟩ [UserAction.toggleLight]⟩

/-- C4: the action counter starts at 0 and, for every nonempty sequence of
N handler calls, equals N afterwards — it is incremented by exactly one per
call and never decremented. -/
theorem C4_counter_equals_calls (acts : List UserAction) (h : 1 ≤ acts.length) :
    SmartHomeApp.init.action_count = 0 ∧
    ∃ s', run acts SmartHomeApp.init = some s' ∧ s'.action_count = acts.length := by
  refine ⟨rfl, ?_⟩
  obtain ⟨s', hs', -, -, hcnt, -⟩ := run_sound acts SmartHomeApp.init stateInv_init
  exact ⟨s', hs', by simpa [SmartHomeApp.init] using hcnt⟩

theorem C4_counter_equals_calls_witness :
    1 ≤ [UserAction.toggleLight].length ∧
    (SmartHomeApp.init.action_count = 0 ∧
    ∃ s', run [UserAction.toggleLight] SmartHomeApp.init = some s' ∧
      s'.action_count = [UserAction.toggleLight].length) :=
  ⟨by decide, C4_counter_equals_calls [UserAction.toggleLight] (by decide)⟩

/-- C5: every sequence of handler calls leaves the registry's key sequence
(names, order, and hence length) unchanged; only values are ever mutated. -/
theorem C5_registry_names_stable (acts : List UserAction) :
    ∃ s', run acts SmartHomeApp.init = some s' ∧
      s'.devices.map Prod.fst = SmartHomeApp.init.devices.map Prod.fst ∧
      s'.devices.length = SmartHomeApp.init.devices.length := by
  obtain ⟨s', hs', -, -, -, hmap⟩ := run_sound acts SmartHomeApp.init stateInv_init
  refine ⟨s', hs', hmap, ?_⟩
  have hlen := congrArg List.length hmap
  simpa using hlen

/-- C6: whenever a toggleLight call from a reachable state lands on the
Living Room Light, the light's stored value flips between exactly the two
tags "Off" and "On" (Off becomes On and On becomes Off), and the flip
applied twice is the identity on those two tags. -/
theorem C6_light_binary_flip (s : SmartHomeApp) (h : Reach s) :
    (∀ v, (v = "Off" ∨ v = "On") → lightFlip (lightFlip v) = v) ∧
    ∃ s', SmartHomeApp.toggleLight s = some s' ∧
      (s'.current_device = "Living Room Light" →
        (s.devices.lookup "Living Room Light" = some "Off" ∧
            s'.devices.lookup "Living Room Light" = some "On") ∨
          (s.devices.lookup "Living Room Light" = some "On" ∧
            s'.devices.lookup "Living Room Light" = some "Off")) := by
  refine ⟨by rintro v (rfl | rfl) <;> rfl, ?_⟩
  obtain ⟨lv, tv, hlv, htv, hdev, hcur⟩ := reach_inv s h
  obtain ⟨d, c, n⟩ := s
  dsimp only at hdev hcur ⊢
  subst hdev
  refine ⟨_, toggleLight_run lv (tStr tv) "Disarmed" c n hcur, ?_⟩
  dsimp only
  intro hland
  rw [hland, if_pos rfl]
  rcases hlv with rfl | rfl
  · exact Or.inl ⟨by simp [lookup_mkDevices], by simp [lookup_mkDevices, lightFlip]⟩
  · exact Or.inr ⟨by simp [lookup_mkDevices], by simp [lookup_mkDevices, lightFlip]⟩

theorem C6_light_binary_flip_witness :
    Reach SmartHomeApp.init ∧
    ((∀ v, (v = "Off" ∨ v = "On") → lightFlip (lightFlip v) = v) ∧
    ∃ s', SmartHomeApp.toggleLight SmartHomeApp.init = some s' ∧
      (s'.current_device = "Living Room Light" →
        (SmartHomeApp.init.devices.lookup "Living Room Light" = some "Off" ∧
            s'.devices.lookup "Living Room Light" = some "On") ∨
          (SmartHomeApp.init.devices.lookup "Living Room Light" = some "On" ∧
            s'.devices.lookup "Living Room Light" = some "Off"))) :=
  ⟨⟨[], rfl⟩, C6_light_binary_flip SmartHomeApp.init ⟨[], rfl⟩⟩

/-- C7: after initialization and after every click sequence the handlers all
succeed, the current device is a key of the registry, and the list.index
lookup performed at the start of each handler finds it. -/
theorem C7_current_device_valid (acts : List UserAction) :
    ∃ s', run acts SmartHomeApp.init = some s' ∧
      s'.current_device ∈ s'.devices.map Prod.fst ∧
      (listIndex? (s'.devices.map Prod.fst) s'.current_device).isSome = true := by
  obtain ⟨s', hs', hInv', -, -, -⟩ := run_sound acts SmartHomeApp.init stateInv_init
  obtain ⟨lv, tv, -, -, hdev, hcur⟩ := hInv'
  have hidx : ∀ c, c ∈ deviceNames → (listIndex? deviceNames c).isSome = true := by decide
  refine ⟨s', hs', ?_, ?_⟩
  · rw [hdev]; exact hcur
  · rw [hdev]; exact hidx _ hcur

/-- C8: implicit invariant — the Security System's value stays "Disarmed"
after every click sequence, since neither handler writes to that key. -/
theorem C8_security_never_mutated (acts : List UserAction) :
    ∃ s', run acts SmartHomeApp.init = some s' ∧
      s'.devices.lookup "Security System" = some "Disarmed" := by
  obtain ⟨s', hs', hInv', -, -, -⟩ := run_sound acts SmartHomeApp.init stateInv_init
  obtain ⟨lv, tv, -, -, hdev, -⟩ := hInv'
  exact ⟨s', hs', by rw [hdev]; simp [lookup_mkDevices]⟩

/-- C9: frame property — from any reachable state, a toggleLight call
leaves the Thermostat and Security System values unchanged, and a
setThermostat call leaves the Living Room Light and Security System values
unchanged; beyond its own target key a handler only moves the cursor and
the counter. -/
theorem C9_handler_frame (s : SmartHomeApp) (h : Reach s) :
    (∃ s', SmartHomeApp.toggleLight s = some s' ∧
      s'.devices.lookup "Thermostat" = s.devices.lookup "Thermostat" ∧
      s'.devices.lookup "Security System" = s.devices.lookup "Security System") ∧
    (∃ s', SmartHomeApp.setThermostat s = some s' ∧
      s'.devices.lookup "Living Room Light" = s.devices.lookup "Living Room Light" ∧
      s'.devices.lookup "Security System" = s.devices.lookup "Security System") := by
  have hInv := reach_inv s h
  obtain ⟨s1, hs1, -, -, -, -, hframe1, -⟩ := step_sound UserAction.toggleLight s hInv
  obtain ⟨s2, hs2, -, -, -, -, hframe2, -⟩ := step_sound UserAction.setThermostat s hInv
  exact ⟨⟨s1, hs1, hframe1 _ (by decide), hframe1 _ (by decide)⟩,
         ⟨s2, hs2, hframe2 _ (by decide), hframe2 _ (by decide)⟩⟩

theorem C9_handler_frame_witness :
    Reach SmartHomeApp.init ∧
    ((∃ s', SmartHomeApp.toggleLight SmartHomeApp.init = some s' ∧
      s'.devices.lookup "Thermostat" = SmartHomeApp.init.devices.lookup "Thermostat" ∧
      s'.devices.lookup "Security System" =
        SmartHomeApp.init.devices.lookup "Security System") ∧
    (∃ s', SmartHomeApp.setThermostat SmartHomeApp.init = some s' ∧
      s'.devices.lookup "Living Room Light" =
        SmartHomeApp.init.devices.lookup "Living Room Light" ∧
      s'.devices.lookup "Security System" =
        SmartHomeApp.init.devices.lookup "Security System")) :=
  ⟨⟨[], rfl⟩, C9_handler_frame SmartHomeApp.init ⟨[], rfl⟩⟩

/-- C10: safety — after every click sequence the Thermostat value is a
decimal integer followed by "°C" (initially "22°C"), and the parse in
setThermostat that strips "°C" and converts the remainder to an integer
succeeds on it. -/
theorem C10_thermostat_always_parses (acts : List UserAction) :
    SmartHomeApp.init.devices.lookup "Thermostat" = some "22°C" ∧
    ∃ s' tv, run acts SmartHomeApp.init = some s' ∧
      s'.devices.lookup "Thermostat" = some (toString (tv : Nat) ++ "°C") ∧
      parseInt? (stripDegCStr (toString tv ++ "°C")) = some (tv : Int) := by
  refine ⟨rfl, ?_⟩
  obtain ⟨s', hs', hInv', -, -, -⟩ := run_sound acts SmartHomeApp.init stateInv_init
  obtain ⟨lv, tv, -, htv, hdev, -⟩ := hInv'
  exact ⟨s', tv, hs', by rw [hdev]; simp [lookup_mkDevices, tStr], parse_tStr tv htv⟩
